import Mathlib

/-!
Verification of the risk-scoring and strategy-selection engine of the
kasu-retention-system repository (src/ml_model.py), as a shallow embedding
in Lean 4.

Python reals are modelled as rationals (`ℚ`); a Python `dict` record whose
keys may be absent is modelled as a structure of `Option` fields
(`dict.get(k, default)` becomes `Option.getD`, `dict[k]` becomes a match
that errors on `none`, mirroring `KeyError`); the pluggable scoring object
(`ml_model`) is modelled as a structure of two functions whose outcome
distinguishes a successful numeric result, an `AttributeError`, and any
other exception; `np.random.uniform(0.1, 0.9)` is modelled by threading the
sampled value as an explicit argument.
-/

namespace KasuRetention

/-- Outcome of invoking a method of the scoring object from Python: either a
numeric result was produced and extracted, or the call raised
`AttributeError`, or it raised some other exception (which also covers
malformed output, whose extraction/rounding raises). -/
inductive PyResult (α : Type) where
  | ok : α → PyResult α
  | attrError : PyResult α
  | exc : PyResult α
  deriving DecidableEq, Repr

/-- The scoring object passed as `ml_model`: `predict_proba` models
`ml_model.predict_proba(X)[0, 1]` (the positive-class probability of the
single row), `predict` models `ml_model.predict(X)[0]`. -/
structure MLModel where
  predict_proba : List ℚ → PyResult ℚ
  predict : List ℚ → PyResult ℚ

/-- The loosely-typed `student_data` dict: each key may be present
(`some v`) or absent (`none`), mirroring the Python dict. -/
structure StudentData where
  age : Option ℚ
  course : Option String
  residence : Option String
  gpa : Option ℚ
  parental_income : Option ℚ
  attendance : Option ℚ
  failures : Option ℚ
  deriving Repr

/-- Banker rounding as in Python round: nearest integer, ties to even. -/
def roundHalfEven (q : ℚ) : ℤ :=
  if q - ⌊q⌋ < 1/2 then ⌊q⌋
  else if 1/2 < q - ⌊q⌋ then ⌊q⌋ + 1
  else if ⌊q⌋ % 2 = 0 then ⌊q⌋ else ⌊q⌋ + 1

/-- Model of round(q, 2) from Python: round to 2 decimal places, ties to even. -/
def round2 (q : ℚ) : ℚ := (roundHalfEven (q * 100) : ℚ) / 100

/-- Model of the function with name _map_course_to_number in src/ml_model.py: the dict lookup
`course_mapping.get(course_name, 1)` over distinct string keys, written as
an equality chain. -/
def map_course_to_number (course_name : String) : ℤ :=
  if course_name = "Computer Science" then 1
  else if course_name = "Engineering" then 2
  else if course_name = "Medicine" then 3
  else if course_name = "Law" then 4
  else if course_name = "Business Administration" then 5
  else if course_name = "Business" then 5
  else if course_name = "Education" then 6
  else if course_name = "Agriculture" then 7
  else 1

/-- The feature-construction step of `predict_dropout_risk` (the `features`
dict literal reordered into `expected_features` order by the DataFrame
selection). Required-key accesses student_data[gpa],
student_data[attendance], student_data[failures] raise `KeyError`
when absent; the dict literal evaluates its values top to bottom, so the
first missing required key reached is `gpa`, then `attendance`, then
`failures`. The error carries the missing key name, as KeyError does. -/
def encodeFeatures (d : StudentData) : Except String (List ℚ) :=
  match d.gpa with
  | none => .error "gpa"
  | some gpa =>
    match d.attendance with
    | none => .error "attendance"
    | some attendance =>
      match d.failures with
      | none => .error "failures"
      | some failures =>
        .ok [ d.age.getD 20,
              1,
              (map_course_to_number (d.course.getD "Computer Science") : ℚ),
              if d.residence.getD "Urban" = "Rural" then 1 else 0,
              gpa * 25,
              d.parental_income.getD 300000 / 50000,
              attendance,
              0,
              failures,
              d.parental_income.getD 300000 / 200000,
              if 75 ≤ attendance then 1 else 0,
              if d.residence.getD "Urban" = "Rural" then 1 else 0 ]

/-- Model of predict_dropout_risk from src/ml_model.py. `u` is the value sampled
by `np.random.uniform(0.1, 0.9)` on the demo path. The outer
`try/except Exception` turns any failure (a `KeyError` from encoding, a
non-`AttributeError` exception from `predict_proba`, or any exception from
`predict`) into the fallback `0.5`; an `AttributeError` from
`predict_proba` selects the `predict` path, whose result is clamped by
`max(0, min(1, risk_score))` before rounding. -/
def predict_dropout_risk (d : StudentData) (ml_model : Option MLModel) (u : ℚ) : ℚ :=
  match ml_model with
  | none => round2 u
  | some m =>
    match encodeFeatures d with
    | .error _ => 1/2
    | .ok X =>
      match m.predict_proba X with
      | .ok p => round2 p
      | .exc => 1/2
      | .attrError =>
        match m.predict X with
        | .ok v => round2 (max 0 (min 1 v))
        | .attrError => 1/2
        | .exc => 1/2

/-- Model of get_intervention_strategy from src/ml_model.py. -/
def get_intervention_strategy (risk_score : ℚ) : String :=
  if risk_score > 0.7 then
    " CRITICAL: Immediate counseling, financial aid assessment, parental notification"
  else if risk_score > 0.4 then
    " MODERATE: Academic counseling, tutoring, attendance monitoring"
  else
    " LOW: Regular check-ins, progress monitoring"

/-- The concrete example record of spec §8:
{gpa:3.2, attendance:85.5, failures:1, residence:"Urban",
 parental_income:450000, course:"Computer Science", age:20}. -/
def exampleRecord : StudentData :=
  { age := some 20, course := some "Computer Science", residence := some "Urban",
    gpa := some (16/5), parental_income := some 450000,
    attendance := some (171/2), failures := some 1 }


/-- The feature list of the §8 example record, in expected_features order. -/
def exampleFeatures : List ℚ := [20, 1, 1, 0, 80, 9, 171/2, 0, 1, 9/4, 1, 0]

/-- A record with every optional field present but gpa absent. -/
def missingGpaRecord : StudentData :=
  { age := some 20, course := some "Computer Science", residence := some "Urban",
    gpa := none, parental_income := some 450000,
    attendance := some (171/2), failures := some 1 }

/-- A probability-shape capability returning 0.3 on every input. -/
def probaModel : MLModel :=
  { predict_proba := fun _ => .ok (3/10), predict := fun _ => .ok (3/10) }

/-- A capability whose every invocation raises a non-AttributeError exception. -/
def excModel : MLModel :=
  { predict_proba := fun _ => .exc, predict := fun _ => .exc }

/-- A probability-shape capability emitting 1.5, outside [0, 1]. -/
def overModel : MLModel :=
  { predict_proba := fun _ => .ok (3/2), predict := fun _ => .ok 0 }

/-- A value-shape capability (no probability support) returning 2 on every
input. -/
def valueOverModel : MLModel :=
  { predict_proba := fun _ => .attrError, predict := fun _ => .ok 2 }

/-- A value-shape capability (no probability support) returning 0.3 on every
input. -/
def valueModel : MLModel :=
  { predict_proba := fun _ => .attrError, predict := fun _ => .ok (3/10) }

theorem floor_le_roundHalfEven (q : ℚ) : ⌊q⌋ ≤ roundHalfEven q := by
  unfold roundHalfEven
  split_ifs <;> omega

theorem roundHalfEven_le_floor_add_one (q : ℚ) : roundHalfEven q ≤ ⌊q⌋ + 1 := by
  unfold roundHalfEven
  split_ifs <;> omega

theorem roundHalfEven_intCast (n : ℤ) : roundHalfEven (n : ℚ) = n := by
  unfold roundHalfEven
  norm_num

theorem le_roundHalfEven (n : ℤ) (q : ℚ) (h : (n : ℚ) ≤ q) : n ≤ roundHalfEven q :=
  le_trans (Int.le_floor.mpr h) (floor_le_roundHalfEven q)

theorem roundHalfEven_le (n : ℤ) (q : ℚ) (h : q ≤ (n : ℚ)) : roundHalfEven q ≤ n := by
  have hfl : ⌊q⌋ ≤ n := by
    have h1 := Int.floor_le_floor h
    simpa using h1
  by_cases hc : ⌊q⌋ + 1 ≤ n
  · exact le_trans (roundHalfEven_le_floor_add_one q) hc
  · have hn : ⌊q⌋ = n := by omega
    have hq : q = (n : ℚ) := le_antisymm h (hn ▸ Int.floor_le q)
    rw [hq, roundHalfEven_intCast]

theorem round2_int_div (m : ℤ) : round2 ((m : ℚ) / 100) = (m : ℚ) / 100 := by
  unfold round2
  have h : ((m : ℚ) / 100) * 100 = (m : ℚ) := by field_simp
  rw [h, roundHalfEven_intCast]

theorem round2_bounds (q : ℚ) (lo hi : ℤ) (h1 : (lo : ℚ) / 100 ≤ q)
    (h2 : q ≤ (hi : ℚ) / 100) :
    (lo : ℚ) / 100 ≤ round2 q ∧ round2 q ≤ (hi : ℚ) / 100 := by
  unfold round2
  constructor
  · have h3 : (lo : ℚ) ≤ q * 100 := by linarith
    have h4 := le_roundHalfEven lo (q * 100) h3
    have h5 : (lo : ℚ) ≤ (roundHalfEven (q * 100) : ℚ) := by exact_mod_cast h4
    linarith
  · have h3 : q * 100 ≤ (hi : ℚ) := by linarith
    have h4 := roundHalfEven_le hi (q * 100) h3
    have h5 : ((roundHalfEven (q * 100) : ℚ)) ≤ (hi : ℚ) := by exact_mod_cast h4
    linarith


theorem encode_exampleRecord : encodeFeatures exampleRecord = .ok exampleFeatures := by
  simp [encodeFeatures, exampleRecord, exampleFeatures, map_course_to_number]
  norm_num

/-- C3: get_intervention_strategy is total over the rationals and maps
risk > 0.70 to the CRITICAL guidance, 0.40 < risk ≤ 0.70 to MODERATE, and
risk ≤ 0.40 to LOW; in particular 0.71 maps to CRITICAL, 0.70 to MODERATE,
0.41 to MODERATE and 0.40 to LOW. -/
theorem C3_strategy_thresholds (r : ℚ) :
    (0.70 < r → get_intervention_strategy r =
      " CRITICAL: Immediate counseling, financial aid assessment, parental notification") ∧
    (0.40 < r → r ≤ 0.70 → get_intervention_strategy r =
      " MODERATE: Academic counseling, tutoring, attendance monitoring") ∧
    (r ≤ 0.40 → get_intervention_strategy r =
      " LOW: Regular check-ins, progress monitoring") ∧
    get_intervention_strategy 0.71 =
      " CRITICAL: Immediate counseling, financial aid assessment, parental notification" ∧
    get_intervention_strategy 0.70 =
      " MODERATE: Academic counseling, tutoring, attendance monitoring" ∧
    get_intervention_strategy 0.41 =
      " MODERATE: Academic counseling, tutoring, attendance monitoring" ∧
    get_intervention_strategy 0.40 =
      " LOW: Regular check-ins, progress monitoring" := by
  refine ⟨?_, ?_, ?_, ?_, ?_, ?_, ?_⟩ <;>
    intros <;>
    unfold get_intervention_strategy <;>
    split_ifs <;>
    first
      | rfl
      | (exfalso; norm_num at *; try linarith)

/-- C3 witness: the theorem applied at 0.71, whose hypothesis 0.70 < 0.71
holds. -/
theorem C3_strategy_thresholds_witness :
    (0.70 : ℚ) < 0.71 ∧ get_intervention_strategy 0.71 =
      " CRITICAL: Immediate counseling, financial aid assessment, parental notification" :=
  ⟨by norm_num, (C3_strategy_thresholds 0.71).1 (by norm_num)⟩

/-- C8: the course mapping matches the eight-entry table exactly
(case-sensitively) and every other string maps to the fallback 1, including
a lower-case variant of a table key. -/
theorem C8_course_mapping (s : String) :
    map_course_to_number "Computer Science" = 1 ∧
    map_course_to_number "Engineering" = 2 ∧
    map_course_to_number "Medicine" = 3 ∧
    map_course_to_number "Law" = 4 ∧
    map_course_to_number "Business Administration" = 5 ∧
    map_course_to_number "Business" = 5 ∧
    map_course_to_number "Education" = 6 ∧
    map_course_to_number "Agriculture" = 7 ∧
    (s ∉ ["Computer Science", "Engineering", "Medicine", "Law",
          "Business Administration", "Business", "Education", "Agriculture"] →
      map_course_to_number s = 1) ∧
    map_course_to_number "computer science" = 1 := by
  refine ⟨rfl, rfl, rfl, rfl, rfl, rfl, rfl, rfl, ?_, by decide⟩
  intro h
  simp only [List.mem_cons, List.not_mem_nil, or_false, not_or] at h
  obtain ⟨h1, h2, h3, h4, h5, h6, h7, h8⟩ := h
  unfold map_course_to_number
  split_ifs
  all_goals simp_all

/-- C8 witness: the theorem applied at the lower-case string, which is not
in the table, yields the fallback code 1. -/
theorem C8_course_mapping_witness :
    ("computer science" : String) ∉ ["Computer Science", "Engineering", "Medicine", "Law",
          "Business Administration", "Business", "Education", "Agriculture"] ∧
    map_course_to_number "computer science" = 1 :=
  ⟨by decide, (C8_course_mapping "computer science").2.2.2.2.2.2.2.2.1 (by decide)⟩


/-- C4: for every record with the required fields present, encoding succeeds
with exactly 12 fields in the fixed order, each given by its exact formula
(positions 0-11: Age, Gender, Course_Chosen, Residence_Location,
Semester_Average_Grade, Parental_Income_Level, Attendance, Marital_Status,
Course_Failures, Financial_Stress, Attendance_Compliance,
Rural_Disadvantage); and the concrete §8 example record encodes to
(20, 1, 1, 0, 80, 9, 85.5, 0, 1, 2.25, 1, 0). -/
theorem C4_encode_fields (d : StudentData) (g a f : ℚ)
    (hg : d.gpa = some g) (ha : d.attendance = some a) (hf : d.failures = some f) :
    (∃ X, encodeFeatures d = .ok X ∧ X.length = 12 ∧
      X.get? 0 = some (d.age.getD 20) ∧
      X.get? 1 = some 1 ∧
      X.get? 2 = some ((map_course_to_number (d.course.getD "Computer Science") : ℚ)) ∧
      X.get? 3 = some (if d.residence.getD "Urban" = "Rural" then 1 else 0) ∧
      X.get? 4 = some (g * 25) ∧
      X.get? 5 = some (d.parental_income.getD 300000 / 50000) ∧
      X.get? 6 = some a ∧
      X.get? 7 = some 0 ∧
      X.get? 8 = some f ∧
      X.get? 9 = some (d.parental_income.getD 300000 / 200000) ∧
      X.get? 10 = some (if 75 ≤ a then 1 else 0) ∧
      X.get? 11 = some (if d.residence.getD "Urban" = "Rural" then 1 else 0)) ∧
    encodeFeatures exampleRecord = .ok [20, 1, 1, 0, 80, 9, 171/2, 0, 1, 9/4, 1, 0] := by
  constructor
  · refine ⟨[ d.age.getD 20, 1,
        (map_course_to_number (d.course.getD "Computer Science") : ℚ),
        if d.residence.getD "Urban" = "Rural" then 1 else 0,
        g * 25, d.parental_income.getD 300000 / 50000, a, 0, f,
        d.parental_income.getD 300000 / 200000,
        if 75 ≤ a then 1 else 0,
        if d.residence.getD "Urban" = "Rural" then 1 else 0 ], ?_,
      rfl, rfl, rfl, rfl, rfl, rfl, rfl, rfl, rfl, rfl, rfl, rfl, rfl⟩
    simp [encodeFeatures, hg, ha, hf]
  · have h := encode_exampleRecord
    simpa [exampleFeatures] using h

/-- C4 witness: the theorem applied to the §8 example record, whose
required fields are present. -/
theorem C4_encode_fields_witness :
    exampleRecord.gpa = some (16/5) ∧ exampleRecord.attendance = some (171/2) ∧
    exampleRecord.failures = some 1 ∧
    encodeFeatures exampleRecord = .ok [20, 1, 1, 0, 80, 9, 171/2, 0, 1, 9/4, 1, 0] :=
  ⟨rfl, rfl, rfl, (C4_encode_fields exampleRecord (16/5) (171/2) 1 rfl rfl rfl).2⟩

/-- C1 counterexample: on a record whose required field gpa is absent, the
encoding step fails with the key name gpa, yet predict_dropout_risk returns
the score 0.50 — the missing-field failure is swallowed by the broad
exception handler and converted into a score, so it is not propagated to
the caller as the claim states. -/
theorem C1_counterexample :
    encodeFeatures missingGpaRecord = .error "gpa" ∧
    predict_dropout_risk missingGpaRecord (some probaModel) 0 = 1/2 := by
  constructor
  · simp [encodeFeatures, missingGpaRecord]
  · simp [predict_dropout_risk, encodeFeatures, missingGpaRecord]

/-- C1 amended: when a required field (gpa, attendance or failures) is
absent, the encoding step does raise a key error naming the first missing
required field, but predict_dropout_risk catches it in its broad exception
handler and returns the fallback score 0.50 instead of propagating the
error to the caller. -/
theorem C1_missing_field_swallowed (d : StudentData) (m : MLModel) (u : ℚ)
    (h : d.gpa = none ∨ d.attendance = none ∨ d.failures = none) :
    (∃ fieldName, encodeFeatures d = .error fieldName ∧
      fieldName ∈ ["gpa", "attendance", "failures"]) ∧
    predict_dropout_risk d (some m) u = 1/2 := by
  have herr : ∃ fieldName, encodeFeatures d = .error fieldName ∧
      fieldName ∈ ["gpa", "attendance", "failures"] := by
    rcases hg : d.gpa with _ | g
    · exact ⟨"gpa", by simp [encodeFeatures, hg], by simp⟩
    · rcases ha : d.attendance with _ | a
      · exact ⟨"attendance", by simp [encodeFeatures, hg, ha], by simp⟩
      · rcases hf : d.failures with _ | f
        · exact ⟨"failures", by simp [encodeFeatures, hg, ha, hf], by simp⟩
        · simp [hg, ha, hf] at h
  obtain ⟨fieldName, hname, hmem⟩ := herr
  exact ⟨⟨fieldName, hname, hmem⟩, by simp [predict_dropout_risk, hname]⟩

/-- C1 witness: the amended theorem applied to the record missing gpa. -/
theorem C1_missing_field_swallowed_witness :
    missingGpaRecord.gpa = none ∧
    predict_dropout_risk missingGpaRecord (some probaModel) 0 = 1/2 :=
  ⟨rfl, (C1_missing_field_swallowed missingGpaRecord probaModel 0 (Or.inl rfl)).2⟩

/-- C2: whenever every invocation of the scoring capability fails — the
probability call raises a non-AttributeError exception, or it raises
AttributeError (no probability support) and the value call also raises —
predict_dropout_risk returns exactly 0.50; being a total function, it never
raises. -/
theorem C2_capability_failure_neutral (d : StudentData) (m : MLModel) (u : ℚ)
    (h : ∀ X, m.predict_proba X = .exc ∨
      (m.predict_proba X = .attrError ∧
        (m.predict X = .attrError ∨ m.predict X = .exc))) :
    predict_dropout_risk d (some m) u = 1/2 := by
  cases he : encodeFeatures d with
  | error e => simp [predict_dropout_risk, he]
  | ok X =>
    rcases h X with hp | ⟨hp, hv⟩
    · simp [predict_dropout_risk, he, hp]
    · rcases hv with hv | hv <;> simp [predict_dropout_risk, he, hp, hv]

/-- C2 witness: the theorem applied to a capability that raises on every
call. -/
theorem C2_capability_failure_neutral_witness :
    predict_dropout_risk exampleRecord (some excModel) 0 = 1/2 :=
  C2_capability_failure_neutral exampleRecord excModel 0 (fun _ => Or.inl rfl)


/-- C5 counterexample: a probability-shape capability emitting 1.5 makes
predict_dropout_risk return 1.5, outside [0.0, 1.0] — the probability path
is not clamped, so the invariant does not hold on every path. -/
theorem C5_counterexample :
    predict_dropout_risk exampleRecord (some overModel) 0 = 3/2 ∧
    ¬ predict_dropout_risk exampleRecord (some overModel) 0 ≤ 1 := by
  have hr : predict_dropout_risk exampleRecord (some overModel) 0 = round2 (3/2) := by
    simp [predict_dropout_risk, encode_exampleRecord, overModel]
  have h150 : round2 (3/2) = 3/2 := by
    have h := round2_int_div 150
    norm_num at h
    exact h
  rw [hr, h150]
  norm_num

/-- C5 amended: the returned risk score is in [0.0, 1.0] and is a multiple
of 0.01 (rounded to 2 decimal places) on the demo path (given the sampled
value lies in [0.1, 0.9]), the value-shape path, and the failure-fallback
path; on the probability path this holds provided the probability the
capability emits is itself within [0, 1] — that path is not clamped. -/
theorem C5_score_in_unit_interval (d : StudentData) (mo : Option MLModel) (u : ℚ)
    (hu1 : 1/10 ≤ u) (hu2 : u ≤ 9/10)
    (hp : ∀ m X p, mo = some m → m.predict_proba X = .ok p → 0 ≤ p ∧ p ≤ 1) :
    0 ≤ predict_dropout_risk d mo u ∧ predict_dropout_risk d mo u ≤ 1 ∧
    ∃ n : ℤ, predict_dropout_risk d mo u = (n : ℚ) / 100 := by
  have hhalf : (0:ℚ) ≤ 1/2 ∧ (1:ℚ)/2 ≤ 1 ∧ ∃ n : ℤ, (1:ℚ)/2 = (n : ℚ) / 100 :=
    ⟨by norm_num, by norm_num, ⟨50, by norm_num⟩⟩
  have hround : ∀ q : ℚ, 0 ≤ q → q ≤ 1 →
      0 ≤ round2 q ∧ round2 q ≤ 1 ∧ ∃ n : ℤ, round2 q = (n : ℚ) / 100 := by
    intro q h0 h1
    have hb := round2_bounds q 0 100 (by norm_num; linarith) (by push_cast; linarith)
    refine ⟨by simpa using hb.1, ?_, ⟨roundHalfEven (q * 100), rfl⟩⟩
    have := hb.2
    push_cast at this
    linarith
  cases mo with
  | none =>
    have h := hround u (by linarith) (by linarith)
    simpa [predict_dropout_risk] using h
  | some m =>
    cases he : encodeFeatures d with
    | error e => simpa [predict_dropout_risk, he] using hhalf
    | ok X =>
      cases hpp : m.predict_proba X with
      | ok p =>
        have hp01 := hp m X p rfl hpp
        have h := hround p hp01.1 hp01.2
        simpa [predict_dropout_risk, he, hpp] using h
      | exc => simpa [predict_dropout_risk, he, hpp] using hhalf
      | attrError =>
        cases hpv : m.predict X with
        | ok v =>
          have hcl0 : (0:ℚ) ≤ max 0 (min 1 v) := le_max_left 0 (min 1 v)
          have hcl1 : max 0 (min 1 v) ≤ 1 :=
            max_le (by norm_num) (min_le_left 1 v)
          have h := hround (max 0 (min 1 v)) hcl0 hcl1
          simpa [predict_dropout_risk, he, hpp, hpv] using h
        | attrError => simpa [predict_dropout_risk, he, hpp, hpv] using hhalf
        | exc => simpa [predict_dropout_risk, he, hpp, hpv] using hhalf

/-- C5 witness: the amended theorem applied in demo mode with sampled value
0.5. -/
theorem C5_score_in_unit_interval_witness :
    (1:ℚ)/10 ≤ 1/2 ∧ (1:ℚ)/2 ≤ 9/10 ∧
    (0 ≤ predict_dropout_risk exampleRecord none (1/2) ∧
     predict_dropout_risk exampleRecord none (1/2) ≤ 1 ∧
     ∃ n : ℤ, predict_dropout_risk exampleRecord none (1/2) = (n : ℚ) / 100) :=
  ⟨by norm_num, by norm_num,
    C5_score_in_unit_interval exampleRecord none (1/2) (by norm_num) (by norm_num)
      (fun m X p hm => by exact absurd hm (by simp))⟩

/-- C6: when the capability has no probability support and its value-shape
output lies outside [0, 1], predict_dropout_risk clamps: an output below 0
yields 0.0 and an output above 1 yields 1.0. -/
theorem C6_value_shape_clamped (d : StudentData) (m : MLModel) (u v : ℚ)
    (X : List ℚ) (he : encodeFeatures d = .ok X)
    (hpp : m.predict_proba X = .attrError) (hpv : m.predict X = .ok v) :
    (v < 0 → predict_dropout_risk d (some m) u = 0) ∧
    (1 < v → predict_dropout_risk d (some m) u = 1) := by
  have hrun : predict_dropout_risk d (some m) u = round2 (max 0 (min 1 v)) := by
    simp [predict_dropout_risk, he, hpp, hpv]
  constructor
  · intro hv
    have hcl : max 0 (min 1 v) = 0 := by
      rw [min_eq_right (by linarith : v ≤ (1:ℚ))]
      exact max_eq_left (by linarith)
    have h0 : round2 (0:ℚ) = 0 := by
      have h := round2_int_div 0
      norm_num at h
      exact h
    rw [hrun, hcl, h0]
  · intro hv
    have hcl : max 0 (min 1 v) = 1 := by
      rw [min_eq_left (by linarith : (1:ℚ) ≤ v)]
      norm_num
    have h1 : round2 (1:ℚ) = 1 := by
      have h := round2_int_div 100
      norm_num at h
      exact h
    rw [hrun, hcl, h1]

/-- C6 witness: the theorem applied to a value-shape capability returning 2,
whose output above 1 is clamped to 1.0. -/
theorem C6_value_shape_clamped_witness :
    predict_dropout_risk exampleRecord (some valueOverModel) 0 = 1 :=
  (C6_value_shape_clamped exampleRecord valueOverModel 0 2 exampleFeatures
    encode_exampleRecord rfl rfl).2 (by norm_num)

/-- C7: in demo mode, for every sampled value in [0.1, 0.9] and every
record, the returned score lies in [0.1, 0.9] and is a multiple of 0.01
(rounded to 2 decimal places). -/
theorem C7_demo_mode_bounded (d : StudentData) (u : ℚ)
    (h1 : 1/10 ≤ u) (h2 : u ≤ 9/10) :
    1/10 ≤ predict_dropout_risk d none u ∧
    predict_dropout_risk d none u ≤ 9/10 ∧
    ∃ n : ℤ, predict_dropout_risk d none u = (n : ℚ) / 100 := by
  have hrun : predict_dropout_risk d none u = round2 u := rfl
  have hb := round2_bounds u 10 90 (by push_cast; linarith) (by push_cast; linarith)
  rw [hrun]
  refine ⟨?_, ?_, ⟨roundHalfEven (u * 100), rfl⟩⟩
  · have := hb.1
    push_cast at this
    linarith
  · have := hb.2
    push_cast at this
    linarith

/-- C7 witness: the theorem applied at sampled value 0.5. -/
theorem C7_demo_mode_bounded_witness :
    1/10 ≤ predict_dropout_risk exampleRecord none (1/2) ∧
    predict_dropout_risk exampleRecord none (1/2) ≤ 9/10 ∧
    ∃ n : ℤ, predict_dropout_risk exampleRecord none (1/2) = (n : ℚ) / 100 :=
  C7_demo_mode_bounded exampleRecord (1/2) (by norm_num) (by norm_num)

/-- C9: the scorer attempts the probability shape first — when it succeeds
with probability p the result is p rounded — and when the capability lacks
probability support (AttributeError) it falls back to the value shape,
returning the value clamped to [0, 1] and rounded, not the 0.50 failure
fallback. -/
theorem C9_probability_first_value_fallback (d : StudentData) (m : MLModel)
    (u : ℚ) (X : List ℚ) (he : encodeFeatures d = .ok X) :
    (∀ p, m.predict_proba X = .ok p →
      predict_dropout_risk d (some m) u = round2 p) ∧
    (∀ v, m.predict_proba X = .attrError → m.predict X = .ok v →
      predict_dropout_risk d (some m) u = round2 (max 0 (min 1 v))) := by
  constructor
  · intro p hpp
    simp [predict_dropout_risk, he, hpp]
  · intro v hpp hpv
    simp [predict_dropout_risk, he, hpp, hpv]

/-- C9 witness: the theorem applied to a value-shape capability returning
0.3 after the probability probe raises AttributeError. -/
theorem C9_probability_first_value_fallback_witness :
    predict_dropout_risk exampleRecord (some valueModel) 0 =
      round2 (max 0 (min 1 (3/10))) :=
  (C9_probability_first_value_fallback exampleRecord valueModel 0
    exampleFeatures encode_exampleRecord).2 (3/10) rfl rfl

/-- C10: with no scoring capability, predict_dropout_risk returns the demo
score without reading any field of the record: the result equals round2 of
the sampled value for every record, so it is identical across arbitrary
records — including one missing every required field — and never errors. -/
theorem C10_demo_ignores_record (d e : StudentData) (u : ℚ) :
    predict_dropout_risk d none u = round2 u ∧
    predict_dropout_risk d none u = predict_dropout_risk e none u :=
  ⟨rfl, rfl⟩

end KasuRetention
